import Mathlib

/-!
Verification of the staged message-handoff pipeline
(service1 → queue-step-1 → service2 → queue-step-2 → service3).

The Go sources are embedded shallowly: each stage's message-processing
function becomes a pure Lean function from an environment record (the
decoded message body, the outcomes of the external library calls such as
json marshaling, SQS send, trace extract/inject, the generated UUID and
the formatted clock readings) to an effects record (whether DeleteMessage
was called on the input queue, what body and attributes were sent to the
next queue, and which statsd counters and timers were emitted).
-/

namespace PipelineModel

/-- Shallow embedding of the nested pipeline struct of PipelineMessage
(src/service1/main.go, src/shard/service2/main.go, src/service3/main.go):
start_time, step1_complete, step2_complete (RFC3339Nano strings, empty when
absent) and current_step (int). -/
structure PipelineMeta where
  StartTime : String
  Step1Complete : String
  Step2Complete : String
  CurrentStep : Int
  deriving Repr, DecidableEq

/-- Shallow embedding of the Go struct PipelineMessage: correlation_id,
data, the pipeline metadata record, and error_type (empty string when the
JSON field is absent, matching Go's zero value with omitempty). -/
structure PipelineMessage where
  CorrelationID : String
  Data : String
  Pipeline : PipelineMeta
  ErrorType : String
  deriving Repr, DecidableEq

/-- Environment of one call to processStep2Message
(src/shard/service2/main.go, lines 192-448): the result of
json.Unmarshal on the message body (none = unmarshal error), the outcomes
of the tracer and SQS library calls, the UUID that uuid.New would return,
the formatted clock reading for step2_complete, the measured-latency
bucket flag, and the behaviour of time.Parse on RFC3339Nano strings. -/
structure Step2Env where
  body : Option PipelineMessage
  extractOk : Bool
  injectOk : Bool
  traceHeaders : List (String × String)
  marshalOk : Bool
  sendOk : Bool
  freshUUID : String
  nowStep2Complete : String
  under50ms : Bool
  parseTime : String → Option Int

/-- Observable effects of one call to processStep2Message: whether
DeleteMessage was called on the step-1 input queue, the body and message
attributes sent to the step-2 queue (none when nothing was sent), the
statsd counter and timer names emitted, and whether the receive span was
started fresh because trace extraction failed. -/
structure Step2Effects where
  deleted : Bool
  forwarded : Option (PipelineMessage × List (String × String))
  counters : List String
  timers : List String
  startedFreshSpan : Bool
  deriving Repr, DecidableEq

/-- Shallow embedding of processStep2Message
(src/shard/service2/main.go, lines 192-448), following the Go control
flow: unmarshal failure deletes the malformed message and returns; an
error_type equal to "invalid_data" short-circuits (error counters,
delete, no forward); otherwise data is prefixed, step2_complete and
current_step are written, success metrics are emitted, and the message is
marshaled and sent — marshal or send failure returns without deleting,
and only a successful send is followed by DeleteMessage. -/
def processStep2Message (env : Step2Env) : Step2Effects :=
  match env.body with
  | none =>
      { deleted := true
        forwarded := none
        counters := ["business.pipeline.errors.json.unmarshal"]
        timers := []
        startedFreshSpan := false }
  | some message =>
      let correlationID :=
        if message.CorrelationID = "" then env.freshUUID else message.CorrelationID
      let startedFresh := !env.extractOk
      let timersRecv :=
        if (env.parseTime message.Pipeline.Step1Complete).isSome then
          ["business.pipeline.step1_to_step2.duration"]
        else []
      if message.ErrorType = "invalid_data" then
        { deleted := true
          forwarded := none
          counters := ["business.pipeline.errors.step2", "sli.processing.total",
                       "sli.processing.error", "business.pipeline.failed.step2"]
          timers := timersRecv
          startedFreshSpan := startedFresh }
      else
        let updated : PipelineMessage :=
          { message with
            Data := "Processed by service2: " ++ message.Data
            Pipeline := { message.Pipeline with
                          Step2Complete := env.nowStep2Complete
                          CurrentStep := 2 } }
        let successCounters :=
          ["sli.processing.total", "sli.processing.success"] ++
          (if env.under50ms then ["sli.latency.under_50ms"] else []) ++
          ["business.pipeline.messages.step2"]
        let successTimers :=
          ["sli.processing_time", "business.pipeline.step2.duration",
           "sli.pipeline.duration"]
        let carrierOut := if env.injectOk then env.traceHeaders else []
        let msgAttrs := ("correlation-id", correlationID) :: carrierOut
        if !env.marshalOk then
          { deleted := false
            forwarded := none
            counters := successCounters
            timers := timersRecv ++ successTimers
            startedFreshSpan := startedFresh }
        else if !env.sendOk then
          { deleted := false
            forwarded := none
            counters := successCounters ++
              ["sli.processing.total", "sli.processing.error",
               "business.pipeline.errors.sqs.send"]
            timers := timersRecv ++ successTimers
            startedFreshSpan := startedFresh }
        else
          { deleted := true
            forwarded := some (updated, msgAttrs)
            counters := successCounters
            timers := timersRecv ++ successTimers
            startedFreshSpan := startedFresh }

/-- Environment of one call to processStep3Message
(src/service3/main.go, lines 119-243): the result of json.Unmarshal on
the message body, the outcome of tracer.Extract, the UUID that uuid.New
would return, the measured-latency bucket flags, and the behaviour of
time.Parse on RFC3339Nano strings. -/
structure Step3Env where
  body : Option PipelineMessage
  extractOk : Bool
  freshUUID : String
  under60ms : Bool
  under300ms : Bool
  under1s : Bool
  parseTime : String → Option Int

/-- Observable effects of one call to processStep3Message: whether
DeleteMessage was called on the step-2 input queue, the statsd counter
and timer names emitted, and whether the receive span was started fresh
because trace extraction failed. -/
structure Step3Effects where
  deleted : Bool
  counters : List String
  timers : List String
  startedFreshSpan : Bool
  deriving Repr, DecidableEq

/-- Shallow embedding of processStep3Message
(src/service3/main.go, lines 119-243), following the Go control flow:
unmarshal failure logs and returns without deleting the message; there is
no error_type check; the step2→step3 timer is guarded by parsing
step2_complete; the end-to-end timer is guarded by parsing start_time,
the step1 calculated timer is nested under the start_time guard plus its
own step1_complete guard, and the step2 calculated timer is nested under
both of those plus its own step2_complete guard; SLI and business metrics
follow; the message is then deleted. -/
def processStep3Message (env : Step3Env) : Step3Effects :=
  match env.body with
  | none =>
      { deleted := false
        counters := []
        timers := []
        startedFreshSpan := false }
  | some message =>
      let startedFresh := !env.extractOk
      let timersRecv :=
        if (env.parseTime message.Pipeline.Step2Complete).isSome then
          ["business.pipeline.step2_to_step3.duration"]
        else []
      let timersCalc :=
        if (env.parseTime message.Pipeline.StartTime).isSome then
          ["business.pipeline.end_to_end.duration"] ++
          (if (env.parseTime message.Pipeline.Step1Complete).isSome then
            ["business.pipeline.step1.calculated_duration"] ++
            (if (env.parseTime message.Pipeline.Step2Complete).isSome then
              ["business.pipeline.step2.calculated_duration"]
            else [])
          else [])
        else []
      let sliCounters :=
        ["sli.processing.total", "sli.processing.success"] ++
        (if env.under60ms then ["sli.latency.under_60ms"] else [])
      let pipelineCounters :=
        if (env.parseTime message.Pipeline.StartTime).isSome then
          ["sli.pipeline.total", "sli.pipeline.success"] ++
          (if env.under300ms then ["sli.pipeline.under_300ms"] else []) ++
          (if env.under1s then ["sli.pipeline.under_1s"] else [])
        else []
      let pipelineTimers :=
        if (env.parseTime message.Pipeline.StartTime).isSome then
          ["sli.pipeline.duration"]
        else []
      { deleted := true
        counters := sliCounters ++ pipelineCounters ++
          ["business.pipeline.messages.step3", "business.pipeline.completed"]
        timers := timersRecv ++ timersCalc ++ ["sli.processing_time"] ++
          pipelineTimers ++ ["business.pipeline.step3.duration"]
        startedFreshSpan := startedFresh }

/-- Environment of one call to sendMessageHandler together with
sendToService2 (src/service1/main.go, lines 112-325): the
X-Correlation-ID header value (empty when absent), the X-Inject-Error
flag, the UUID that uuid.New would return, the formatted clock readings
for start_time and step1_complete, the outcomes of tracer.Inject,
json.Marshal and the SQS send, and the measured-latency bucket flag. -/
structure Step1Env where
  headerCorrelationID : String
  injectError : Bool
  freshUUID : String
  nowStartTime : String
  nowStep1Complete : String
  injectOk : Bool
  traceHeaders : List (String × String)
  marshalOk : Bool
  sendOk : Bool
  under50ms : Bool

/-- Observable effects of one call to sendMessageHandler: the body and
attributes sent to the step-1 queue (none when marshal or send failed),
the HTTP status code returned, the correlation id echoed in the success
response, and the statsd counter names emitted. -/
structure Step1Effects where
  sent : Option (PipelineMessage × List (String × String))
  httpStatus : Nat
  responseCorrelationID : Option String
  counters : List String
  deriving Repr, DecidableEq

/-- Shallow embedding of sendMessageHandler and sendToService2
(src/service1/main.go, lines 112-325): the correlation id comes from the
header or a fresh UUID; the message is created with start_time, later
step1_complete, current_step = 1, and error_type = "invalid_data" exactly
when error injection was requested; the body is marshaled and sent with a
correlation-id attribute plus the injected trace headers; marshal or send
failure yields HTTP 500 with error counters, success yields HTTP 200
echoing the correlation id. -/
def sendMessageHandler (env : Step1Env) : Step1Effects :=
  let correlationID :=
    if env.headerCorrelationID = "" then env.freshUUID else env.headerCorrelationID
  let message : PipelineMessage :=
    { CorrelationID := correlationID
      Data := "Initial data from service1"
      Pipeline :=
        { StartTime := env.nowStartTime
          Step1Complete := env.nowStep1Complete
          Step2Complete := ""
          CurrentStep := 1 }
      ErrorType := if env.injectError then "invalid_data" else "" }
  let baseCounters :=
    (if env.injectError then ["business.pipeline.errors.step1"] else []) ++
    ["sli.requests.total"] ++
    (if env.injectError then ["sli.requests.error"] else ["sli.requests.success"]) ++
    (if env.under50ms then ["sli.latency.under_50ms"] else []) ++
    ["business.pipeline.messages.step1"]
  let msgAttrs :=
    ("correlation-id", correlationID) ::
      (if env.injectOk then env.traceHeaders else [])
  if env.marshalOk && env.sendOk then
    { sent := some (message, msgAttrs)
      httpStatus := 200
      responseCorrelationID := some correlationID
      counters := baseCounters }
  else
    { sent := none
      httpStatus := 500
      responseCorrelationID := none
      counters := baseCounters ++
        ["sli.requests.total", "sli.requests.error",
         "business.pipeline.errors.sqs.send"] }

/-- Result of one sqsClient.ReceiveMessage call as seen by a consumer
loop: either a transport-level error or a (possibly empty) batch of
messages. -/
inductive ReceiveResult (α : Type) where
  | failure : ReceiveResult α
  | success : List α → ReceiveResult α
  deriving Repr, DecidableEq

/-- Observable effects of one iteration of a consumer loop: whether the
loop exits, the log-entry messages written, the statsd counters emitted,
the seconds slept before re-polling, and the messages handed to the
per-message processor. -/
structure LoopIteration (α : Type) where
  exits : Bool
  logs : List String
  counters : List String
  sleepSeconds : Nat
  dispatched : List α
  deriving Repr, DecidableEq

/-- Shallow embedding of one iteration of consumeFromStep1
(src/shard/service2/main.go, lines 160-190): a receive error is logged,
counted, followed by a 5-second sleep and a retry; otherwise each
received message is dispatched to processStep2Message. The loop body has
no exit path. -/
def consumeFromStep1Iter (r : ReceiveResult α) : LoopIteration α :=
  match r with
  | ReceiveResult.failure =>
      { exits := false
        logs := ["Failed to receive messages from SQS, retrying..."]
        counters := ["business.pipeline.errors.sqs.receive"]
        sleepSeconds := 5
        dispatched := [] }
  | ReceiveResult.success msgs =>
      { exits := false
        logs := []
        counters := []
        sleepSeconds := 0
        dispatched := msgs }

/-- Shallow embedding of one iteration of consumeFromStep2
(src/service3/main.go, lines 100-117): a receive error is silently
skipped with an immediate retry (no log, no counter, no sleep);
otherwise each received message is dispatched to processStep3Message.
The loop body has no exit path. -/
def consumeFromStep2Iter (r : ReceiveResult α) : LoopIteration α :=
  match r with
  | ReceiveResult.failure =>
      { exits := false
        logs := []
        counters := []
        sleepSeconds := 0
        dispatched := [] }
  | ReceiveResult.success msgs =>
      { exits := false
        logs := []
        counters := []
        sleepSeconds := 0
        dispatched := msgs }

/-- Messages dispatched to the per-message processor over a finite trace
of receive results, for either consumer loop: each iteration's
dispatched batch in order. -/
def consumeRun (iter : ReceiveResult α → LoopIteration α) :
    List (ReceiveResult α) → List α
  | [] => []
  | r :: rs => (iter r).dispatched ++ consumeRun iter rs

/-! Claim C1: short-circuit on inherited errors. -/

/-- Concrete message with a non-empty error_type other than
"invalid_data", used to test the stage-2 evaluation step. -/
def c1Msg : PipelineMessage :=
  { CorrelationID := "corr-1"
    Data := "d"
    Pipeline := { StartTime := "t0", Step1Complete := "t1",
                  Step2Complete := "", CurrentStep := 1 }
    ErrorType := "some_other_error" }

/-- Stage-2 environment delivering c1Msg with all library calls
succeeding. -/
def c1Env : Step2Env :=
  { body := some c1Msg
    extractOk := true
    injectOk := true
    traceHeaders := []
    marshalOk := true
    sendOk := true
    freshUUID := "uuid-1"
    nowStep2Complete := "t2"
    under50ms := true
    parseTime := fun s => if s = "" then none else some 0 }

/-- C1 counterexample: a Work Item whose error_type is the non-empty
string "some_other_error" is processed normally by stage 2 — it is
forwarded to the next channel and no error counter is recorded —
because the code checks error_type against the exact string
"invalid_data", not against non-emptiness. -/
theorem shortCircuit_counterexample :
    c1Msg.ErrorType ≠ "" ∧
    (processStep2Message c1Env).forwarded ≠ none ∧
    "business.pipeline.errors.step2" ∉ (processStep2Message c1Env).counters := by
  refine ⟨by decide, ?_, by decide⟩
  decide

/-- C1 amended: stage 2 short-circuits exactly when error_type equals
"invalid_data": it then deletes the item from the input channel,
forwards nothing, records the step-2 error counter, and emits neither
the business step-2 duration timer nor the processing-success counter;
stage 3 performs no error_type check at all and processes and deletes
every decodable item regardless of its error_type. -/
theorem shortCircuit_amended :
    (∀ (env : Step2Env) (m : PipelineMessage), env.body = some m →
      m.ErrorType = "invalid_data" →
        (processStep2Message env).deleted = true ∧
        (processStep2Message env).forwarded = none ∧
        "business.pipeline.errors.step2" ∈ (processStep2Message env).counters ∧
        "business.pipeline.step2.duration" ∉ (processStep2Message env).timers ∧
        "sli.processing.success" ∉ (processStep2Message env).counters) ∧
    (∀ (env : Step3Env) (m : PipelineMessage), env.body = some m →
        (processStep3Message env).deleted = true ∧
        "business.pipeline.completed" ∈ (processStep3Message env).counters) := by
  constructor
  · intro env m hb he
    simp only [processStep2Message, hb, he, if_pos]
    refine ⟨by trivial, by trivial, by simp, ?_, by simp⟩
    split <;> simp
  · intro env m hb
    simp only [processStep3Message, hb]
    refine ⟨by trivial, by simp⟩

/-- Concrete message carrying error_type "invalid_data" for the C1
witness. -/
def c1WitMsg : PipelineMessage :=
  { CorrelationID := "corr-2"
    Data := "d"
    Pipeline := { StartTime := "t0", Step1Complete := "t1",
                  Step2Complete := "", CurrentStep := 1 }
    ErrorType := "invalid_data" }

/-- Stage-2 environment delivering c1WitMsg. -/
def c1WitEnv : Step2Env :=
  { c1Env with body := some c1WitMsg }

/-- Stage-3 environment delivering c1WitMsg. -/
def c1WitEnv3 : Step3Env :=
  { body := some c1WitMsg
    extractOk := true
    freshUUID := "uuid-1"
    under60ms := true
    under300ms := true
    under1s := true
    parseTime := fun s => if s = "" then none else some 0 }

/-- C1 witness: the amended short-circuit theorem applied to a concrete
item marked "invalid_data" at stage 2, and to the same item at stage 3. -/
theorem shortCircuit_amended_witness :
    c1WitEnv.body = some c1WitMsg ∧ c1WitMsg.ErrorType = "invalid_data" ∧
    (processStep2Message c1WitEnv).forwarded = none ∧
    (processStep3Message c1WitEnv3).deleted = true :=
  ⟨rfl, rfl, (shortCircuit_amended.1 c1WitEnv c1WitMsg rfl rfl).2.1,
    (shortCircuit_amended.2 c1WitEnv3 c1WitMsg rfl).1⟩

/-! Claim C2: malformed message handling. -/

/-- Stage-3 environment whose message body fails json.Unmarshal. -/
def c2Env3 : Step3Env :=
  { body := none
    extractOk := true
    freshUUID := "uuid-2"
    under60ms := true
    under300ms := true
    under1s := true
    parseTime := fun _ => none }

/-- C2 counterexample: a message whose body cannot be decoded at stage 3
is not acknowledged/deleted from the input channel — processStep3Message
logs and returns without calling DeleteMessage, so the claim that every
receiving stage deletes malformed messages immediately is false. -/
theorem malformedDelete_counterexample :
    c2Env3.body = none ∧ (processStep3Message c2Env3).deleted = false :=
  ⟨rfl, rfl⟩

/-- C2 amended: a malformed body at stage 2 is deleted from the input
channel immediately, counted, and not forwarded; a malformed body at
stage 3 is skipped without being deleted (it stays on the channel for
redelivery); in both consumer loops the failure is terminal for that
item only — the loop never exits and every subsequent batch of received
items is still dispatched to the processor. -/
theorem malformedDelete_amended :
    (∀ env : Step2Env, env.body = none →
      (processStep2Message env).deleted = true ∧
      (processStep2Message env).forwarded = none ∧
      "business.pipeline.errors.json.unmarshal" ∈ (processStep2Message env).counters) ∧
    (∀ env : Step3Env, env.body = none →
      (processStep3Message env).deleted = false ∧
      (processStep3Message env).counters = []) ∧
    (∀ (rs : List (ReceiveResult Nat)) (msgs : List Nat),
      consumeRun consumeFromStep1Iter (ReceiveResult.success msgs :: rs) =
        msgs ++ consumeRun consumeFromStep1Iter rs ∧
      consumeRun consumeFromStep2Iter (ReceiveResult.success msgs :: rs) =
        msgs ++ consumeRun consumeFromStep2Iter rs) := by
  refine ⟨?_, ?_, ?_⟩
  · intro env hb
    simp [processStep2Message, hb]
  · intro env hb
    simp [processStep3Message, hb]
  · intro rs msgs
    constructor <;> simp [consumeRun, consumeFromStep1Iter, consumeFromStep2Iter]

/-- Stage-2 environment whose message body fails json.Unmarshal, for the
C2 witness. -/
def c2WitEnv2 : Step2Env :=
  { body := none
    extractOk := true
    injectOk := true
    traceHeaders := []
    marshalOk := true
    sendOk := true
    freshUUID := "uuid-2"
    nowStep2Complete := "t2"
    under50ms := true
    parseTime := fun _ => none }

/-- C2 witness: the amended malformed-message theorem applied to a
concrete undecodable body at stage 2 and to a concrete receive trace. -/
theorem malformedDelete_amended_witness :
    c2WitEnv2.body = none ∧
    (processStep2Message c2WitEnv2).deleted = true ∧
    consumeRun consumeFromStep2Iter
        (ReceiveResult.success [7] :: ([] : List (ReceiveResult Nat))) =
      [7] ++ consumeRun consumeFromStep2Iter ([] : List (ReceiveResult Nat)) :=
  ⟨rfl, (malformedDelete_amended.1 c2WitEnv2 rfl).1,
    (malformedDelete_amended.2.2 ([] : List (ReceiveResult Nat)) [7]).2⟩

/-! Claim C3: acknowledge only after successful send. -/

/-- C3: on the forwarding path of stage 2 (decodable body, no
short-circuit), the item is deleted from the input channel iff both
json.Marshal and the SQS send succeeded; if either fails, nothing is
forwarded and the item is left on the input channel for redelivery. -/
theorem forwardAckOnlyAfterSend :
    ∀ (env : Step2Env) (m : PipelineMessage), env.body = some m →
      m.ErrorType ≠ "invalid_data" →
        ((processStep2Message env).deleted = true ↔
          (env.marshalOk = true ∧ env.sendOk = true)) ∧
        ((processStep2Message env).forwarded.isSome = true ↔
          (env.marshalOk = true ∧ env.sendOk = true)) ∧
        (env.marshalOk = false ∨ env.sendOk = false →
          (processStep2Message env).deleted = false ∧
          (processStep2Message env).forwarded = none) := by
  intro env m hb hne
  simp only [processStep2Message, hb, if_neg hne]
  cases hm : env.marshalOk <;> cases hs : env.sendOk <;> simp [hm, hs]

/-- Concrete message on the stage-2 processing path for the C3 witness. -/
def c3WitMsg : PipelineMessage :=
  { CorrelationID := "corr-3"
    Data := "d"
    Pipeline := { StartTime := "t0", Step1Complete := "t1",
                  Step2Complete := "", CurrentStep := 1 }
    ErrorType := "" }

/-- Stage-2 environment for the C3 witness in which the SQS send fails. -/
def c3WitEnv : Step2Env :=
  { body := some c3WitMsg
    extractOk := true
    injectOk := true
    traceHeaders := []
    marshalOk := true
    sendOk := false
    freshUUID := "uuid-3"
    nowStep2Complete := "t2"
    under50ms := true
    parseTime := fun s => if s = "" then none else some 0 }

/-- C3 witness: the acknowledge-only-after-send theorem applied to a
concrete item whose send fails — the item is not deleted and nothing is
forwarded. -/
theorem forwardAckOnlyAfterSend_witness :
    c3WitEnv.body = some c3WitMsg ∧ c3WitMsg.ErrorType ≠ "invalid_data" ∧
    (processStep2Message c3WitEnv).deleted = false ∧
    (processStep2Message c3WitEnv).forwarded = none :=
  ⟨rfl, by decide,
    (forwardAckOnlyAfterSend c3WitEnv c3WitMsg rfl (by decide)).2.2 (Or.inr rfl)⟩

/-! Claim C4: trace-carrier resilience. -/

/-- C4: trace-carrier resilience — the deletion decision, the forwarded
message, and the emitted counters of stage 2 are unchanged whether trace
extraction succeeds or fails (a failed decode merely starts a fresh
receive span); whether trace injection succeeds or fails, the handoff
still proceeds identically (same deletion decision, same forwarded body,
same counters — only the trace headers in the outgoing attributes can
differ); and stage 3's deletion decision and counters are likewise
independent of extraction success. -/
theorem carrierResilience :
    ∀ (env : Step2Env) (env3 : Step3Env) (b : Bool),
      ((processStep2Message { env with extractOk := b }).deleted =
          (processStep2Message env).deleted ∧
        (processStep2Message { env with extractOk := b }).forwarded =
          (processStep2Message env).forwarded ∧
        (processStep2Message { env with extractOk := b }).counters =
          (processStep2Message env).counters) ∧
      ((processStep2Message { env with injectOk := b }).deleted =
          (processStep2Message env).deleted ∧
        (processStep2Message { env with injectOk := b }).forwarded.isSome =
          (processStep2Message env).forwarded.isSome ∧
        (processStep2Message { env with injectOk := b }).forwarded.map
            (fun p => p.1) =
          (processStep2Message env).forwarded.map (fun p => p.1) ∧
        (processStep2Message { env with injectOk := b }).counters =
          (processStep2Message env).counters) ∧
      ((processStep3Message { env3 with extractOk := b }).deleted =
          (processStep3Message env3).deleted ∧
        (processStep3Message { env3 with extractOk := b }).counters =
          (processStep3Message env3).counters) := by
  intro env env3 b
  refine ⟨?_, ?_, ?_⟩
  · cases hb : env.body with
    | none => simp [processStep2Message, hb]
    | some m =>
        simp only [processStep2Message, hb]
        split_ifs <;> simp
  · cases hb : env.body with
    | none => simp [processStep2Message, hb]
    | some m =>
        simp only [processStep2Message, hb]
        split_ifs <;> simp
  · cases hb : env3.body with
    | none => simp [processStep3Message, hb]
    | some m => simp [processStep3Message, hb]

/-! Claim C5: receive errors are retried. -/

/-- C5 counterexample: stage 3's consumer loop handles a transport-level
receive error with no log entry and no wait before re-polling
(consumeFromStep2 just continues), refuting the claim that every stage
logs the error and waits a short fixed interval before retrying. -/
theorem receiveRetry_counterexample :
    (consumeFromStep2Iter (ReceiveResult.failure : ReceiveResult Nat)).logs = [] ∧
    (consumeFromStep2Iter (ReceiveResult.failure : ReceiveResult Nat)).sleepSeconds = 0 :=
  ⟨rfl, rfl⟩

/-- C5 amended: a transport-level receive error is never fatal and both
consumer loops retry receiving indefinitely — no iteration ever exits,
and an erroring iteration dispatches nothing while later receives are
still processed; stage 2's loop logs the error, increments the receive
error counter and sleeps five seconds before retrying, while stage 3's
loop retries immediately with no log, no counter and no wait. -/
theorem receiveRetry_amended :
    ∀ (α : Type) (r : ReceiveResult α) (rs : List (ReceiveResult α)),
      (consumeFromStep1Iter r).exits = false ∧
      (consumeFromStep2Iter r).exits = false ∧
      consumeRun consumeFromStep1Iter (ReceiveResult.failure :: rs) =
        consumeRun consumeFromStep1Iter rs ∧
      consumeRun consumeFromStep2Iter (ReceiveResult.failure :: rs) =
        consumeRun consumeFromStep2Iter rs ∧
      (consumeFromStep1Iter (ReceiveResult.failure : ReceiveResult α)).logs ≠ [] ∧
      (consumeFromStep1Iter (ReceiveResult.failure : ReceiveResult α)).sleepSeconds = 5 ∧
      "business.pipeline.errors.sqs.receive" ∈
        (consumeFromStep1Iter (ReceiveResult.failure : ReceiveResult α)).counters ∧
      (consumeFromStep2Iter (ReceiveResult.failure : ReceiveResult α)).logs = [] ∧
      (consumeFromStep2Iter (ReceiveResult.failure : ReceiveResult α)).sleepSeconds = 0 := by
  intro α r rs
  cases r <;> simp [consumeFromStep1Iter, consumeFromStep2Iter, consumeRun]

/-! Helper lemmas characterizing the messages that stage 1 sends and
stage 2 forwards. -/

/-- Whenever processStep2Message forwards a message, that message is the
received one with its data prefixed and step2_complete and current_step
rewritten, and the outgoing attributes are the correlation-id entry
followed by the injected trace headers. -/
theorem forwardedCharacterization (env : Step2Env) (m : PipelineMessage)
    (p : PipelineMessage × List (String × String))
    (hb : env.body = some m)
    (hp : (processStep2Message env).forwarded = some p) :
    p.1 = { m with
            Data := "Processed by service2: " ++ m.Data
            Pipeline := { m.Pipeline with
                          Step2Complete := env.nowStep2Complete
                          CurrentStep := 2 } } ∧
    p.2 = ("correlation-id",
            if m.CorrelationID = "" then env.freshUUID else m.CorrelationID) ::
          (if env.injectOk then env.traceHeaders else []) := by
  simp only [processStep2Message, hb] at hp
  split_ifs at hp <;>
    (simp only [Option.some.injEq] at hp
     subst hp
     simp_all)

/-- Whenever sendMessageHandler sends a message, that message carries the
header-or-generated correlation id, the initial data, the ingress
start_time, the step-1 completion time, current_step 1, and error_type
"invalid_data" exactly when injection was requested; the attributes are
the correlation-id entry followed by the injected trace headers. -/
theorem sentCharacterization (env1 : Step1Env)
    (p : PipelineMessage × List (String × String))
    (hp : (sendMessageHandler env1).sent = some p) :
    p.1 = { CorrelationID :=
              if env1.headerCorrelationID = "" then env1.freshUUID
              else env1.headerCorrelationID
            Data := "Initial data from service1"
            Pipeline := { StartTime := env1.nowStartTime
                          Step1Complete := env1.nowStep1Complete
                          Step2Complete := ""
                          CurrentStep := 1 }
            ErrorType := if env1.injectError then "invalid_data" else "" } ∧
    p.2 = ("correlation-id",
            if env1.headerCorrelationID = "" then env1.freshUUID
            else env1.headerCorrelationID) ::
          (if env1.injectOk then env1.traceHeaders else []) := by
  simp only [sendMessageHandler] at hp
  split_ifs at hp <;>
    (simp only [Option.some.injEq] at hp
     subst hp
     simp_all)

/-! Claim C6: correlation stability. -/

/-- C6: correlation stability — ingress writes the header-supplied or
freshly generated correlation id into the Work Item it sends, and stage 2
forwards every item with its correlation_id field unchanged; stage 3
forwards nothing and only reads the field, so the correlation_id
observed at stage 3 equals the one assigned at ingress. -/
theorem correlationStability :
    (∀ (env1 : Step1Env) (p : PipelineMessage × List (String × String)),
      (sendMessageHandler env1).sent = some p →
        p.1.CorrelationID =
          (if env1.headerCorrelationID = "" then env1.freshUUID
           else env1.headerCorrelationID)) ∧
    (∀ (env : Step2Env) (m : PipelineMessage), env.body = some m →
      ∀ p : PipelineMessage × List (String × String),
        (processStep2Message env).forwarded = some p →
          p.1.CorrelationID = m.CorrelationID) := by
  constructor
  · intro env1 p hp
    rw [(sentCharacterization env1 p hp).1]
  · intro env m hb p hp
    rw [(forwardedCharacterization env m p hb hp).1]

/-- Concrete ingress environment for the C6 witness. -/
def c6WitEnv1 : Step1Env :=
  { headerCorrelationID := "req-42"
    injectError := false
    freshUUID := "uuid-6"
    nowStartTime := "t0"
    nowStep1Complete := "t1"
    injectOk := true
    traceHeaders := []
    marshalOk := true
    sendOk := true
    under50ms := true }

/-- Concrete message received by stage 2 for the C6 witness. -/
def c6WitMsg : PipelineMessage :=
  { CorrelationID := "req-42"
    Data := "d"
    Pipeline := { StartTime := "t0", Step1Complete := "t1",
                  Step2Complete := "", CurrentStep := 1 }
    ErrorType := "" }

/-- Stage-2 environment delivering c6WitMsg with all calls succeeding. -/
def c6WitEnv2 : Step2Env :=
  { body := some c6WitMsg
    extractOk := true
    injectOk := true
    traceHeaders := []
    marshalOk := true
    sendOk := true
    freshUUID := "uuid-6b"
    nowStep2Complete := "t2"
    under50ms := true
    parseTime := fun s => if s = "" then none else some 0 }

/-- C6 witness: the correlation-stability theorem applied at a concrete
ingress call and at a concrete stage-2 forwarding call. -/
theorem correlationStability_witness :
    (sendMessageHandler c6WitEnv1).sent.map (fun p => p.1.CorrelationID) =
      some "req-42" ∧
    (processStep2Message c6WitEnv2).forwarded.map (fun p => p.1.CorrelationID) =
      some "req-42" := by
  have h1 := correlationStability.1 c6WitEnv1
  have h2 := correlationStability.2 c6WitEnv2 c6WitMsg rfl
  constructor
  · cases hs : (sendMessageHandler c6WitEnv1).sent with
    | none => exact absurd hs (by decide)
    | some p => simp [h1 p hs]; rfl
  · cases hs : (processStep2Message c6WitEnv2).forwarded with
    | none => exact absurd hs (by decide)
    | some p =>
        simp [h2 p hs]
        rfl

/-! Claim C7: correlation_id non-empty at stage boundaries. -/

/-- Concrete message arriving at stage 2 with an empty correlation_id. -/
def c7Msg : PipelineMessage :=
  { CorrelationID := ""
    Data := "d"
    Pipeline := { StartTime := "t0", Step1Complete := "t1",
                  Step2Complete := "", CurrentStep := 1 }
    ErrorType := "" }

/-- Stage-2 environment delivering c7Msg with all calls succeeding. -/
def c7Env : Step2Env :=
  { body := some c7Msg
    extractOk := true
    injectOk := true
    traceHeaders := []
    marshalOk := true
    sendOk := true
    freshUUID := "uuid-7"
    nowStep2Complete := "t2"
    under50ms := true
    parseTime := fun s => if s = "" then none else some 0 }

/-- C7 counterexample: stage 2 receives an item with an empty
correlation_id and generates a fresh UUID, but only into a local
variable — the forwarded Work Item crosses the next handoff boundary
with its correlation_id field still empty. -/
theorem correlationNonEmpty_counterexample :
    c7Msg.CorrelationID = "" ∧
    (processStep2Message c7Env).forwarded.map (fun p => p.1.CorrelationID) =
      some "" :=
  ⟨rfl, rfl⟩

/-- C7 amended: ingress writes a non-empty correlation id into the Work
Item itself (the header value, or a fresh UUID when the header is
empty); at stage 2 the fresh UUID generated for an empty incoming
correlation_id is used only for the outgoing correlation-id message
attribute — the forwarded body's correlation_id field is the unchanged
(hence still empty) incoming value, while the attribute carries the
fresh UUID. -/
theorem correlationNonEmpty_amended :
    (∀ env1 : Step1Env, env1.freshUUID ≠ "" →
      ∀ p : PipelineMessage × List (String × String),
        (sendMessageHandler env1).sent = some p → p.1.CorrelationID ≠ "") ∧
    (∀ (env : Step2Env) (m : PipelineMessage), env.body = some m →
      m.CorrelationID = "" →
      ∀ p : PipelineMessage × List (String × String),
        (processStep2Message env).forwarded = some p →
          p.1.CorrelationID = "" ∧ ("correlation-id", env.freshUUID) ∈ p.2) := by
  constructor
  · intro env1 hu p hp
    simp only [(sentCharacterization env1 p hp).1]
    by_cases h : env1.headerCorrelationID = ""
    · simp [h]
      exact hu
    · simp [h]
  · intro env m hb hc p hp
    obtain ⟨h1, h2⟩ := forwardedCharacterization env m p hb hp
    constructor
    · simp [h1, hc]
    · simp [h2, hc]

/-- Ingress environment with an empty header and a non-empty fresh UUID,
for the C7 witness. -/
def c7WitEnv1 : Step1Env :=
  { headerCorrelationID := ""
    injectError := false
    freshUUID := "u7"
    nowStartTime := "t0"
    nowStep1Complete := "t1"
    injectOk := true
    traceHeaders := []
    marshalOk := true
    sendOk := true
    under50ms := true }

/-- The body and attributes that c7WitEnv1 sends. -/
def c7SentPair : PipelineMessage × List (String × String) :=
  ({ CorrelationID := "u7"
     Data := "Initial data from service1"
     Pipeline := { StartTime := "t0", Step1Complete := "t1",
                   Step2Complete := "", CurrentStep := 1 }
     ErrorType := "" },
   [("correlation-id", "u7")])

/-- The body and attributes that c7Env forwards. -/
def c7FwdPair : PipelineMessage × List (String × String) :=
  ({ CorrelationID := ""
     Data := "Processed by service2: d"
     Pipeline := { StartTime := "t0", Step1Complete := "t1",
                   Step2Complete := "t2", CurrentStep := 2 }
     ErrorType := "" },
   [("correlation-id", "uuid-7")])

/-- C7 witness: the amended correlation theorem applied at a concrete
ingress call with an empty header and at a concrete stage-2 forwarding
call with an empty incoming correlation_id. -/
theorem correlationNonEmpty_amended_witness :
    (sendMessageHandler c7WitEnv1).sent = some c7SentPair ∧
    c7SentPair.1.CorrelationID ≠ "" ∧
    (processStep2Message c7Env).forwarded = some c7FwdPair ∧
    ("correlation-id", c7Env.freshUUID) ∈ c7FwdPair.2 :=
  ⟨rfl,
    correlationNonEmpty_amended.1 c7WitEnv1 (by decide) c7SentPair rfl,
    rfl,
    (correlationNonEmpty_amended.2 c7Env c7Msg rfl rfl c7FwdPair rfl).2⟩

/-! Claim C8: current_step monotonicity. -/

/-- Concrete message arriving at stage 2 already carrying
current_step = 3. -/
def c8Msg : PipelineMessage :=
  { CorrelationID := "corr-8"
    Data := "d"
    Pipeline := { StartTime := "t0", Step1Complete := "t1",
                  Step2Complete := "", CurrentStep := 3 }
    ErrorType := "" }

/-- Stage-2 environment delivering c8Msg with all calls succeeding. -/
def c8Env : Step2Env :=
  { body := some c8Msg
    extractOk := true
    injectOk := true
    traceHeaders := []
    marshalOk := true
    sendOk := true
    freshUUID := "uuid-8"
    nowStep2Complete := "t2"
    under50ms := true
    parseTime := fun s => if s = "" then none else some 0 }

/-- C8 counterexample: an item received by stage 2 carrying
current_step = 3 is forwarded with current_step = 2 — stage 2 writes the
constant 2 unconditionally, so the written value is smaller than the
value the item carried when the stage received it. -/
theorem currentStepMonotone_counterexample :
    c8Msg.Pipeline.CurrentStep = 3 ∧
    (processStep2Message c8Env).forwarded.map
        (fun p => p.1.Pipeline.CurrentStep) = some 2 :=
  ⟨rfl, rfl⟩

/-- C8 amended: stage 1 writes current_step = 1 into every item it sends
and stage 2 writes the constant 2 into every item it forwards,
regardless of the received value; hence the value written by stage 2 is
non-decreasing exactly for items whose received current_step is at most
2 — which covers every item produced by this pipeline. -/
theorem currentStepMonotone_amended :
    (∀ (env1 : Step1Env) (p : PipelineMessage × List (String × String)),
      (sendMessageHandler env1).sent = some p →
        p.1.Pipeline.CurrentStep = 1) ∧
    (∀ (env : Step2Env) (m : PipelineMessage), env.body = some m →
      ∀ p : PipelineMessage × List (String × String),
        (processStep2Message env).forwarded = some p →
          p.1.Pipeline.CurrentStep = 2 ∧
          (m.Pipeline.CurrentStep ≤ 2 →
            m.Pipeline.CurrentStep ≤ p.1.Pipeline.CurrentStep)) := by
  constructor
  · intro env1 p hp
    simp [(sentCharacterization env1 p hp).1]
  · intro env m hb p hp
    obtain ⟨h1, h2⟩ := forwardedCharacterization env m p hb hp
    refine ⟨by simp [h1], ?_⟩
    intro hle
    simpa [h1] using hle

/-- Concrete message with current_step = 1 for the C8 witness. -/
def c8WitMsg : PipelineMessage :=
  { CorrelationID := "corr-8b"
    Data := "d"
    Pipeline := { StartTime := "t0", Step1Complete := "t1",
                  Step2Complete := "", CurrentStep := 1 }
    ErrorType := "" }

/-- Stage-2 environment delivering c8WitMsg with all calls succeeding. -/
def c8WitEnv : Step2Env :=
  { c8Env with body := some c8WitMsg }

/-- The body and attributes that c8WitEnv forwards. -/
def c8FwdPair : PipelineMessage × List (String × String) :=
  ({ CorrelationID := "corr-8b"
     Data := "Processed by service2: d"
     Pipeline := { StartTime := "t0", Step1Complete := "t1",
                   Step2Complete := "t2", CurrentStep := 2 }
     ErrorType := "" },
   [("correlation-id", "corr-8b")])

/-- C8 witness: the amended current_step theorem applied to a concrete
item carrying current_step = 1 through stage 2. -/
theorem currentStepMonotone_amended_witness :
    (processStep2Message c8WitEnv).forwarded = some c8FwdPair ∧
    c8WitMsg.Pipeline.CurrentStep ≤ c8FwdPair.1.Pipeline.CurrentStep :=
  ⟨rfl,
    (currentStepMonotone_amended.2 c8WitEnv c8WitMsg rfl c8FwdPair rfl).2
      (by decide)⟩

/-! Claim C9: derived-metric skipping on malformed timestamps. -/

/-- Concrete message whose start_time is malformed while step1_complete
and step2_complete are well-formed. -/
def c9Msg : PipelineMessage :=
  { CorrelationID := "corr-9"
    Data := "d"
    Pipeline := { StartTime := "bad", Step1Complete := "t1",
                  Step2Complete := "t2", CurrentStep := 2 }
    ErrorType := "" }

/-- Stage-3 environment delivering c9Msg, with a parse oracle that
rejects exactly the malformed string "bad". -/
def c9Env3 : Step3Env :=
  { body := some c9Msg
    extractOk := true
    freshUUID := "uuid-9"
    under60ms := true
    under300ms := true
    under1s := true
    parseTime := fun s => if s = "bad" then none else some 0 }

/-- C9 counterexample: the step-2 calculated-duration metric is computed
from step1_complete and step2_complete only, and both parse here, yet it
is not emitted — the code nests it under the start_time parse guard, so
a malformed start_time suppresses a metric whose own timestamp inputs
are well-formed, contradicting the claim that only the affected metric
is skipped. -/
theorem metricSkip_counterexample :
    (c9Env3.parseTime c9Msg.Pipeline.Step1Complete).isSome = true ∧
    (c9Env3.parseTime c9Msg.Pipeline.Step2Complete).isSome = true ∧
    "business.pipeline.step2_to_step3.duration" ∈
      (processStep3Message c9Env3).timers ∧
    "business.pipeline.step2.calculated_duration" ∉
      (processStep3Message c9Env3).timers ∧
    (processStep3Message c9Env3).deleted = true := by
  refine ⟨rfl, rfl, by decide, by decide, rfl⟩

/-- C9 amended: stage 3 never fails on malformed timestamps and always
deletes the item, and each derived metric is emitted exactly when every
timestamp in its guard chain parses: the step2→step3 timer requires
step2_complete, the end-to-end timer requires start_time, the step-1
calculated timer requires start_time and step1_complete, and the step-2
calculated timer requires start_time, step1_complete and step2_complete
— so a malformed start_time also silently suppresses both calculated
timers even when their own inputs are well-formed. -/
theorem metricSkip_amended :
    ∀ (env : Step3Env) (m : PipelineMessage), env.body = some m →
      (processStep3Message env).deleted = true ∧
      ("business.pipeline.step2_to_step3.duration" ∈
          (processStep3Message env).timers ↔
        (env.parseTime m.Pipeline.Step2Complete).isSome = true) ∧
      ("business.pipeline.end_to_end.duration" ∈
          (processStep3Message env).timers ↔
        (env.parseTime m.Pipeline.StartTime).isSome = true) ∧
      ("business.pipeline.step1.calculated_duration" ∈
          (processStep3Message env).timers ↔
        ((env.parseTime m.Pipeline.StartTime).isSome = true ∧
         (env.parseTime m.Pipeline.Step1Complete).isSome = true)) ∧
      ("business.pipeline.step2.calculated_duration" ∈
          (processStep3Message env).timers ↔
        ((env.parseTime m.Pipeline.StartTime).isSome = true ∧
         (env.parseTime m.Pipeline.Step1Complete).isSome = true ∧
         (env.parseTime m.Pipeline.Step2Complete).isSome = true)) := by
  intro env m hb
  simp only [processStep3Message, hb]
  cases h0 : (env.parseTime m.Pipeline.StartTime).isSome <;>
    cases h1 : (env.parseTime m.Pipeline.Step1Complete).isSome <;>
      cases h2 : (env.parseTime m.Pipeline.Step2Complete).isSome <;>
        simp [h0, h1, h2]

/-- Concrete message whose three timestamps all parse, for the C9
witness. -/
def c9WitMsg : PipelineMessage :=
  { CorrelationID := "corr-9b"
    Data := "d"
    Pipeline := { StartTime := "t0", Step1Complete := "t1",
                  Step2Complete := "t2", CurrentStep := 2 }
    ErrorType := "" }

/-- Stage-3 environment delivering c9WitMsg with every timestamp
parsing. -/
def c9WitEnv3 : Step3Env :=
  { body := some c9WitMsg
    extractOk := true
    freshUUID := "uuid-9b"
    under60ms := true
    under300ms := true
    under1s := true
    parseTime := fun _ => some 0 }

/-- C9 witness: the amended metric theorem applied to a concrete item
whose timestamps all parse — the step-2 calculated timer is emitted. -/
theorem metricSkip_amended_witness :
    c9WitEnv3.body = some c9WitMsg ∧
    "business.pipeline.step2.calculated_duration" ∈
      (processStep3Message c9WitEnv3).timers :=
  ⟨rfl,
    ((metricSkip_amended c9WitEnv3 c9WitMsg rfl).2.2.2.2).mpr ⟨rfl, rfl, rfl⟩⟩

/-! Claim C10: frame effect of stage-2 forwarding. -/

/-- C10: on stage 2's success path the forwarded message differs from
the received one only in data (prefixed), step2_complete (stamped) and
current_step (set to 2); its correlation_id, start_time, step1_complete
and error_type are exactly those of the received message. -/
theorem forwardFrameEffect :
    ∀ (env : Step2Env) (m : PipelineMessage), env.body = some m →
      ∀ p : PipelineMessage × List (String × String),
        (processStep2Message env).forwarded = some p →
          p.1.CorrelationID = m.CorrelationID ∧
          p.1.Pipeline.StartTime = m.Pipeline.StartTime ∧
          p.1.Pipeline.Step1Complete = m.Pipeline.Step1Complete ∧
          p.1.ErrorType = m.ErrorType ∧
          p.1.Data = "Processed by service2: " ++ m.Data ∧
          p.1.Pipeline.Step2Complete = env.nowStep2Complete ∧
          p.1.Pipeline.CurrentStep = 2 := by
  intro env m hb p hp
  obtain ⟨h1, _⟩ := forwardedCharacterization env m p hb hp
  simp [h1]

/-- Concrete message for the C10 witness. -/
def c10WitMsg : PipelineMessage :=
  { CorrelationID := "corr-10"
    Data := "payload"
    Pipeline := { StartTime := "t0", Step1Complete := "t1",
                  Step2Complete := "", CurrentStep := 1 }
    ErrorType := "" }

/-- Stage-2 environment delivering c10WitMsg with all calls succeeding. -/
def c10WitEnv : Step2Env :=
  { body := some c10WitMsg
    extractOk := true
    injectOk := true
    traceHeaders := []
    marshalOk := true
    sendOk := true
    freshUUID := "uuid-10"
    nowStep2Complete := "t2"
    under50ms := true
    parseTime := fun s => if s = "" then none else some 0 }

/-- The body and attributes that c10WitEnv forwards. -/
def c10FwdPair : PipelineMessage × List (String × String) :=
  ({ CorrelationID := "corr-10"
     Data := "Processed by service2: payload"
     Pipeline := { StartTime := "t0", Step1Complete := "t1",
                   Step2Complete := "t2", CurrentStep := 2 }
     ErrorType := "" },
   [("correlation-id", "corr-10")])

/-- C10 witness: the frame-effect theorem applied to a concrete item
forwarded by stage 2. -/
theorem forwardFrameEffect_witness :
    (processStep2Message c10WitEnv).forwarded = some c10FwdPair ∧
    c10FwdPair.1.Pipeline.StartTime = c10WitMsg.Pipeline.StartTime :=
  ⟨rfl,
    (forwardFrameEffect c10WitEnv c10WitMsg rfl c10FwdPair rfl).2.1⟩

end PipelineModel
